import Mathlib

/-!
Verification development for the Grafana ngalert core: alert-instance state
machine, state-manager cache, per-rule scheduler loop, capability-routed
(forked) API surface, dashboard-UID generation during migration, and the
Azure Resource Graph time-series query executor.

Definitions are shallow embeddings of the Go source under `pkg/` and the
API registration file; components whose implementation files are not part
of the source tree (State Manager, Scheduler, forked handlers, quota check)
are modelled from the specification, as marked in their doc comments.
-/

namespace NgAlert

/-- Alert-instance lifecycle states, from the spec's state machine
`Normal → Pending → Alerting` (the `NoData`/`Error` policy states are not
needed by the transition rules modelled here, which cover firing and
non-firing results only). -/
inductive AlertState where
  | Normal
  | Pending
  | Alerting
  deriving DecidableEq, Repr

/-- Modelled from the spec: `AlertInstance` record (§3 DATA MODEL), keyed by
rule UID and label fingerprint, carrying current/previous state, the time the
current state was entered, and the last processed evaluation timestamp. -/
structure AlertInstance where
  ruleUID : String
  labelFingerprint : Nat
  currentState : AlertState
  previousState : AlertState
  stateSince : Nat
  lastEvaluationTime : Nat
  deriving DecidableEq, Repr

/-- Modelled from the spec: `EvaluationResult` (§3 DATA MODEL), produced once
per tick per label-set; `firing` is the condition outcome at `timestamp`. -/
structure EvaluationResult where
  ruleUID : String
  labelFingerprint : Nat
  timestamp : Nat
  firing : Bool
  deriving DecidableEq, Repr

/-- Modelled from the spec: the State Manager's transition function for one
alert instance (§4.3; the `pkg/services/ngalert/state` implementation is not
part of the source tree, only its callers are). A result older than or equal
to `lastEvaluationTime` is a no-op; otherwise a firing result moves
`Normal → Pending` recording `stateSince := timestamp`, keeps `Pending` until
the rule's `for`-duration has elapsed continuously firing and then moves
`Pending → Alerting`; a non-firing result resets to `Normal` immediately. -/
def processResult (forDuration : Nat) (inst : AlertInstance)
    (r : EvaluationResult) : AlertInstance :=
  if r.timestamp ≤ inst.lastEvaluationTime then
    inst
  else if r.firing then
    match inst.currentState with
    | .Normal =>
        { inst with
          previousState := .Normal
          currentState := .Pending
          stateSince := r.timestamp
          lastEvaluationTime := r.timestamp }
    | .Pending =>
        if forDuration ≤ r.timestamp - inst.stateSince then
          { inst with
            previousState := .Pending
            currentState := .Alerting
            stateSince := r.timestamp
            lastEvaluationTime := r.timestamp }
        else
          { inst with lastEvaluationTime := r.timestamp }
    | .Alerting =>
        { inst with lastEvaluationTime := r.timestamp }
  else
    match inst.currentState with
    | .Normal =>
        { inst with lastEvaluationTime := r.timestamp }
    | s =>
        { inst with
          previousState := s
          currentState := .Normal
          stateSince := r.timestamp
          lastEvaluationTime := r.timestamp }

/-- Modelled from the spec: instance created on first observation of a
label-set (§3), starting from `Normal`; a firing creating result applies the
`Normal → Pending` transition with `stateSince := timestamp`. -/
def newInstance (r : EvaluationResult) : AlertInstance :=
  { ruleUID := r.ruleUID
    labelFingerprint := r.labelFingerprint
    currentState := if r.firing then .Pending else .Normal
    previousState := .Normal
    stateSince := r.timestamp
    lastEvaluationTime := r.timestamp }

/-- The State Manager's instance cache: an association list from
`(ruleUID, labelFingerprint)` keys to alert instances. -/
abbrev StateCache : Type := List ((String × Nat) × AlertInstance)

/-- Key of the instance an evaluation result addresses. -/
def instKey (r : EvaluationResult) : String × Nat :=
  (r.ruleUID, r.labelFingerprint)

/-- Modelled from the spec: the State Manager consumes one evaluation result,
updating the existing instance for the result's `(ruleUID, labelFingerprint)`
key or creating one on first observation of the label-set (§3, §4.3). -/
def applyResult (forDuration : Nat) (cache : StateCache)
    (r : EvaluationResult) : StateCache :=
  if cache.any (fun p => p.1 == instKey r) then
    cache.map (fun p =>
      if p.1 == instKey r then (p.1, processResult forDuration p.2 r) else p)
  else
    cache ++ [(instKey r, newInstance r)]

/-- The §3 invariant: at most one `AlertInstance` per
`(ruleUID, labelFingerprint)` pair, i.e. cache keys are pairwise distinct. -/
def atMostOnePerKey (cache : StateCache) : Prop :=
  (cache.map Prod.fst).Nodup

/-- Modelled from the spec: the per-rule scheduler loop's next evaluation
start time (§4.1, §5; the scheduler implementation is not part of the source
tree). The next evaluation starts at the first tick boundary — a multiple of
the rule's interval — at or after the previous evaluation's finish time and
strictly after its start: missed ticks are dropped, never queued. -/
def nextEvalStart (interval prevStart dur : Nat) : Nat :=
  interval * ((max (prevStart + dur) (prevStart + 1) + interval - 1) / interval)

/-- Modelled from the spec: start time of the n-th evaluation of one rule's
loop, where `dur n` is the duration of the n-th evaluation. -/
def evalStart (interval : Nat) (dur : Nat → Nat) : Nat → Nat
  | 0 => 0
  | n + 1 => nextEvalStart interval (evalStart interval dur n) (dur n)

/-- Declared backend type/capability flag of a data source: Grafana-managed
(served locally) or Lotex, i.e. a remote Prometheus/Cortex/Loki-compatible
backend (proxied). -/
inductive BackendType where
  | grafana
  | lotex
  deriving DecidableEq, Repr

/-- A data source as resolved by the datasource cache collaborator. -/
structure Datasource where
  backendType : BackendType
  deriving DecidableEq, Repr

/-- Datasource cache collaborator (§6): resolves `(orgID, uid)` to a data
source, when one exists. -/
abbrev DatasourceCache : Type := Nat → String → Option Datasource

/-- Errors surfaced by the routed API layer. -/
inductive RouteError where
  | datasourceNotFound
  | backendFailure (status : Nat) (msg : String)
  deriving DecidableEq, Repr

/-- Modelled from the spec: a forked handler for one resource family holds
exactly two implementations of one shared request/response contract — a proxy
(Lotex) implementation and a local implementation — together with the
datasource cache used to choose between them (§4.5; the ForkedAM / ForkedProm
/ ForkedRuler implementation files are not part of the source tree; their
construction from (cache, proxy, local) is visible in RegisterAPIEndpoints,
src/unnamed/part_000 lines 57-88). -/
structure ForkedHandler (Req Resp : Type) where
  cache : DatasourceCache
  proxyImpl : Req → Except RouteError Resp
  localImpl : Req → Except RouteError Resp

/-- Modelled from the spec: per-request selection — resolve the data source
once via the cache, then dispatch on its declared type flag; both paths
return the family's single response schema `Resp`. -/
def ForkedHandler.handle {Req Resp : Type} (f : ForkedHandler Req Resp)
    (orgID : Nat) (dsUID : String) (req : Req) : Except RouteError Resp :=
  match f.cache orgID dsUID with
  | none => .error .datasourceNotFound
  | some ds =>
    match ds.backendType with
    | .grafana => f.localImpl req
    | .lotex => f.proxyImpl req

/-- Embedding of the API struct fields consumed by RegisterAPIEndpoints
(src/unnamed/part_000): the shared datasource cache and, per resource family,
the Lotex (proxy) and local service implementations. -/
structure API (AMReq AMResp PromReq PromResp RulerReq RulerResp : Type) where
  datasourceCache : DatasourceCache
  lotexAM : AMReq → Except RouteError AMResp
  alertmanagerSrv : AMReq → Except RouteError AMResp
  lotexProm : PromReq → Except RouteError PromResp
  prometheusSrv : PromReq → Except RouteError PromResp
  lotexRuler : RulerReq → Except RouteError RulerResp
  rulerSrv : RulerReq → Except RouteError RulerResp

/-- The three handlers registered by RegisterAPIEndpoints, one per resource
family. -/
structure RegisteredEndpoints (AMReq AMResp PromReq PromResp RulerReq
    RulerResp : Type) where
  alertmanager : ForkedHandler AMReq AMResp
  prometheus : ForkedHandler PromReq PromResp
  ruler : ForkedHandler RulerReq RulerResp

/-- Embedded from RegisterAPIEndpoints (src/unnamed/part_000 lines 57-88):
each resource family registers one forked handler — NewForkedAM(cache,
LotexAM, AlertmanagerSrv), NewForkedProm(cache, LotexProm, PrometheusSrv),
NewForkedRuler(cache, LotexRuler, RulerSrv) — all three over the same
datasource cache. -/
def registerAPIEndpoints {AMReq AMResp PromReq PromResp RulerReq RulerResp :
    Type} (api : API AMReq AMResp PromReq PromResp RulerReq RulerResp) :
    RegisteredEndpoints AMReq AMResp PromReq PromResp RulerReq RulerResp :=
  { alertmanager :=
      { cache := api.datasourceCache
        proxyImpl := api.lotexAM
        localImpl := api.alertmanagerSrv }
    prometheus :=
      { cache := api.datasourceCache
        proxyImpl := api.lotexProm
        localImpl := api.prometheusSrv }
    ruler :=
      { cache := api.datasourceCache
        proxyImpl := api.lotexRuler
        localImpl := api.rulerSrv } }

/-- Property of a forked handler: it consults the given cache and serves every
request through exactly one of the two given implementations, selected by the
resolved data source's declared backend type. -/
def forksOver {Req Resp : Type} (f : ForkedHandler Req Resp)
    (cache : DatasourceCache) (proxy localH : Req → Except RouteError Resp) :
    Prop :=
  f.cache = cache ∧
  ∀ orgID dsUID req,
    (cache orgID dsUID = none →
      f.handle orgID dsUID req = .error .datasourceNotFound) ∧
    ∀ ds, cache orgID dsUID = some ds →
      f.handle orgID dsUID req =
        match ds.backendType with
        | .grafana => localH req
        | .lotex => proxy req

/-- Property of a forked handler: any response-schema predicate satisfied by
all successful responses of both implementations is satisfied by every
successful response the handler serves, whichever path was selected — the
two paths share one external response schema. -/
def respectsSharedSchema {Req Resp : Type} (f : ForkedHandler Req Resp) :
    Prop :=
  ∀ conforms : Resp → Prop,
    (∀ req resp, f.proxyImpl req = .ok resp → conforms resp) →
    (∀ req resp, f.localImpl req = .ok resp → conforms resp) →
    ∀ orgID dsUID req resp,
      f.handle orgID dsUID req = .ok resp → conforms resp

/-- Concrete API record used to evaluate the registered fork on an input. -/
def sampleRouterAPI : API Unit Nat Unit Nat Unit Nat :=
  { datasourceCache := fun _ _ => some { backendType := .grafana }
    lotexAM := fun _ => .ok 1
    alertmanagerSrv := fun _ => .ok 2
    lotexProm := fun _ => .ok 3
    prometheusSrv := fun _ => .ok 4
    lotexRuler := fun _ => .ok 5
    rulerSrv := fun _ => .ok 6 }

/-- Argument and result types appearing in the Go Alertmanager interface
signatures (src/unnamed/part_000 lines 25-38). -/
inductive AMType where
  | postableUserConfig
  | postableSilence
  | silenceID
  | gettableSilence
  | gettableSilences
  | stringList
  | boolType
  | stringType
  | gettableAlerts
  | alertGroups
  | errType
  deriving DecidableEq, Repr

/-- Operations of the Alertmanager interface (src/unnamed/part_000 lines
25-38). -/
inductive AMOp where
  | saveAndApplyConfig
  | createSilence
  | deleteSilence
  | getSilence
  | listSilences
  | getAlerts
  | getAlertGroups
  deriving DecidableEq, Repr

/-- Embedded from the Alertmanager interface (src/unnamed/part_000 lines
25-38): each operation's parameter list, as (Go parameter name, type). -/
def amOpParams : AMOp → List (String × AMType)
  | .saveAndApplyConfig => [("config", .postableUserConfig)]
  | .createSilence => [("ps", .postableSilence)]
  | .deleteSilence => [("silenceID", .silenceID)]
  | .getSilence => [("silenceID", .silenceID)]
  | .listSilences => [("filter", .stringList)]
  | .getAlerts =>
      [("active", .boolType), ("silenced", .boolType),
       ("inhibited", .boolType), ("filter", .stringList),
       ("receiver", .stringType)]
  | .getAlertGroups =>
      [("active", .boolType), ("silenced", .boolType),
       ("inhibited", .boolType), ("filter", .stringList),
       ("receiver", .stringType)]

/-- Embedded from the Alertmanager interface (src/unnamed/part_000 lines
25-38): each operation's result types, in order. -/
def amOpResults : AMOp → List AMType
  | .saveAndApplyConfig => [.errType]
  | .createSilence => [.stringType, .errType]
  | .deleteSilence => [.errType]
  | .getSilence => [.gettableSilence, .errType]
  | .listSilences => [.gettableSilences, .errType]
  | .getAlerts => [.gettableAlerts, .errType]
  | .getAlertGroups => [.alertGroups, .errType]

/-- Resource kinds counted by the quota service. -/
inductive ResourceKind where
  | alertRule
  deriving DecidableEq, Repr

/-- Quota service collaborator (§6):
CheckQuota(orgID, resourceKind) → allowed. -/
structure QuotaService where
  CheckQuota : Nat → ResourceKind → Bool

/-- Scheduler registry: the rule UIDs that currently have a running
evaluation loop. -/
abbrev SchedulerRegistry : Type := List String

/-- Error surfaced to the caller of rule creation. -/
inductive RuleApiError where
  | capacityRejection
  deriving DecidableEq, Repr

/-- Modelled from the spec: rule creation (served by RulerSrv, which holds
the QuotaService — src/unnamed/part_000 line 79) consults the quota service
before accepting a new rule; when the organization's quota is exhausted the
request is rejected synchronously with a capacity error and no evaluation
loop is started, otherwise the rule's loop is started (§6, §7, §8). -/
def createRule (q : QuotaService) (reg : SchedulerRegistry) (orgID : Nat)
    (ruleUID : String) : Except RuleApiError SchedulerRegistry :=
  if q.CheckQuota orgID .alertRule then
    .ok (ruleUID :: reg)
  else
    .error .capacityRejection

end NgAlert

namespace Migration

/-- Errors of generateNewDashboardUid: a store failure from the existence
check, or models.ErrDashboardFailedGenerateUniqueUid after three collisions. -/
inductive DashboardUidError where
  | storeFailure (e : String)
  | failedGenerateUniqueUid
  deriving DecidableEq, Repr

/-- Embedded from generateNewDashboardUid (permissions.go lines 84-99): the
loop from attempt index `i` with `fuel` attempts remaining. `gen i` models the
value util.GenerateShortUID() returns on the loop's i-th call; `get orgId uid`
models the xorm existence check on (org_id, uid), yielding whether such a
dashboard exists or a store error. -/
def generateUidAttempts (gen : Nat → String)
    (get : Int → String → Except String Bool) (orgId : Int) :
    Nat → Nat → Except DashboardUidError String
  | _, 0 => .error .failedGenerateUniqueUid
  | i, fuel + 1 =>
    match get orgId (gen i) with
    | .error e => .error (.storeFailure e)
    | .ok true => generateUidAttempts gen get orgId (i + 1) fuel
    | .ok false => .ok (gen i)

/-- Embedded from generateNewDashboardUid (permissions.go lines 84-99): at
most three attempts, starting at index 0. -/
def generateNewDashboardUid (gen : Nat → String)
    (get : Int → String → Except String Bool) (orgId : Int) :
    Except DashboardUidError String :=
  generateUidAttempts gen get orgId 0 3

end Migration

namespace ARG

/-- Time range of a data query (carried through unchanged). -/
structure TimeRange where
  fromUnix : Int
  toUnix : Int
  deriving DecidableEq, Repr

/-- A backend.DataQuery as consumed by executeTimeSeriesQuery: RefID, raw
JSON payload (kept as an opaque string), and time range. -/
structure DataQuery where
  RefID : String
  JSON : String
  timeRange : TimeRange
  deriving DecidableEq, Repr

/-- The azureResourceGraph target inside a query's JSON model
(azure-resource-graph-datasource.go: argJSONQuery.AzureResourceGraph). -/
structure ArgTargetModel where
  query : String
  resultFormat : String
  deriving DecidableEq, Repr

/-- Decoded argJSONQuery model. -/
structure ArgJSONQuery where
  azureResourceGraph : ArgTargetModel
  deriving DecidableEq, Repr

/-- AzureResourceGraphQuery built by buildQueries
(azure-resource-graph-datasource.go lines 29-36; the URL field is never set
by buildQueries and is omitted). -/
structure AzureResourceGraphQuery where
  RefID : String
  ResultFormat : String
  JSON : String
  InterpolatedQuery : String
  timeRange : TimeRange
  deriving DecidableEq, Repr

/-- Frame metadata: the executed query string recorded on responses. -/
structure FrameMeta where
  ExecutedQueryString : String
  deriving DecidableEq, Repr

/-- A data frame: RefID plus optional metadata (payload columns are opaque to
the properties verified here). -/
structure Frame where
  RefID : String
  Meta : Option FrameMeta
  deriving DecidableEq, Repr

/-- backend.DataResponse: frames plus an optional per-query error. -/
structure DataResponse where
  Frames : List Frame
  Error : Option String
  deriving DecidableEq, Repr

/-- The decoded request-body JSON model (simplejson) — only the
subscriptions array is read by executeQuery. -/
structure SimpleJson where
  subscriptions : List String
  deriving DecidableEq, Repr

/-- An outgoing HTTP request: URL path, raw query string and body. -/
structure HttpRequest where
  path : String
  rawQuery : String
  body : String
  deriving DecidableEq, Repr

/-- Embedded from azure-resource-graph-datasource.go line 38. -/
def argAPIVersion : String := "2021-03-01"

/-- Embedded from azure-resource-graph-datasource.go line 39. -/
def argQueryProviderName : String := "/providers/Microsoft.ResourceGraph/resources"

/-- External collaborators of the Azure Resource Graph datasource, one per
fallible step of buildQueries/executeQuery: JSON decoding of the query model,
KQL macro interpolation, simplejson parsing, request-body marshalling,
request construction, trace-header injection, the HTTP round-trip, response
unmarshalling, and table-to-frame conversion. The HTTP response and the
response table are opaque to the verified properties and kept as strings. -/
structure ArgEnv where
  decodeARGQuery : String → Except String ArgJSONQuery
  kqlInterpolate : DataQuery → String → Except String String
  newSimpleJson : String → Except String SimpleJson
  marshalBody : List String → String → Except String String
  createRequest : String → Except String HttpRequest
  injectTrace : HttpRequest → Except String HttpRequest
  doRequest : HttpRequest → Except String String
  unmarshalResponse : String → Except String String
  responseTableToFrame : String → Except String Frame

/-- Embedded from buildQueries (azure-resource-graph-datasource.go lines
62-96): decode each query's JSON model, default the result format to
"table", interpolate the KQL, and collect one AzureResourceGraphQuery per
input query; the first failure aborts the whole build. -/
def buildQueries (env : ArgEnv) : List DataQuery →
    Except String (List AzureResourceGraphQuery)
  | [] => .ok []
  | q :: rest =>
    match env.decodeARGQuery q.JSON with
    | .error e =>
        .error ("failed to decode the Azure Resource Graph query object from JSON: " ++ e)
    | .ok m =>
      match env.kqlInterpolate q m.azureResourceGraph.query with
      | .error e => .error e
      | .ok iq =>
        match buildQueries env rest with
        | .error e => .error e
        | .ok tail =>
          .ok ({ RefID := q.RefID
                 ResultFormat :=
                   if m.azureResourceGraph.resultFormat = "" then "table"
                   else m.azureResourceGraph.resultFormat
                 JSON := q.JSON
                 InterpolatedQuery := iq
                 timeRange := q.timeRange } :: tail)

/-- Embedded from executeQuery (azure-resource-graph-datasource.go lines
104-116): error response carrying one frame with the query's RefID and the
interpolated query string as executed-query metadata. -/
def dataResponseErrorWithExecuted (query : AzureResourceGraphQuery)
    (e : String) : DataResponse :=
  { Error := some e
    Frames := [{ RefID := query.RefID
                 Meta := some { ExecutedQueryString := query.InterpolatedQuery } }] }

/-- Embedded from executeQuery (azure-resource-graph-datasource.go lines
98-183): every failure is recorded in the returned DataResponse.Error — the
function itself is total. Early failures (simplejson parse, body marshal,
request construction) return a response with only the error set; failures
after the request is prepared also attach the executed-query frame; a
successful round-trip returns the converted frame with the request's raw
query string as executed-query metadata and no error. -/
def executeQuery (env : ArgEnv) (query : AzureResourceGraphQuery) :
    DataResponse :=
  match env.newSimpleJson query.JSON with
  | .error e => { Frames := [], Error := some e }
  | .ok model =>
    match env.marshalBody model.subscriptions query.InterpolatedQuery with
    | .error e => { Frames := [], Error := some e }
    | .ok reqBody =>
      match env.createRequest reqBody with
      | .error e => { Frames := [], Error := some e }
      | .ok req0 =>
        let req := { req0 with
                     path := argQueryProviderName
                     rawQuery := "api-version=" ++ argAPIVersion }
        match env.injectTrace req with
        | .error e => dataResponseErrorWithExecuted query e
        | .ok req1 =>
          match env.doRequest req1 with
          | .error e => dataResponseErrorWithExecuted query e
          | .ok res =>
            match env.unmarshalResponse res with
            | .error e => dataResponseErrorWithExecuted query e
            | .ok tbl =>
              match env.responseTableToFrame tbl with
              | .error e => dataResponseErrorWithExecuted query e
              | .ok frame =>
                { Frames := [{ frame with
                               Meta := some { ExecutedQueryString := req.rawQuery } }]
                  Error := none }

/-- The response map backend.QueryDataResponse.Responses, keyed by RefID. -/
abbrev Responses : Type := List (String × DataResponse)

/-- Go map assignment `Responses[k] = v`: overwrite the entry for `k` when
present, otherwise add one. -/
def setResponse (m : Responses) (k : String) (v : DataResponse) : Responses :=
  if m.any (fun p => p.1 == k) then
    m.map (fun p => if p.1 == k then (p.1, v) else p)
  else
    m ++ [(k, v)]

/-- Embedded from executeTimeSeriesQuery (azure-resource-graph-datasource.go
lines 45-60): build all queries (any build failure is the call's error), then
execute each in order, storing each response in the map under the query's
RefID; the call itself then succeeds. -/
def executeTimeSeriesQuery (env : ArgEnv)
    (originalQueries : List DataQuery) : Except String Responses :=
  match buildQueries env originalQueries with
  | .error e => .error e
  | .ok queries =>
    .ok (queries.foldl
      (fun acc q => setResponse acc q.RefID (executeQuery env q)) [])

/-- Concrete collaborator instantiation used to evaluate the executor on
concrete inputs: every step succeeds, except that simplejson parsing of the
payload "bad" fails. -/
def argEnvC : ArgEnv :=
  { decodeARGQuery := fun _ =>
      .ok { azureResourceGraph := { query := "q", resultFormat := "" } }
    kqlInterpolate := fun _ s => .ok s
    newSimpleJson := fun j =>
      if j = "bad" then .error "parse failure" else .ok { subscriptions := [] }
    marshalBody := fun _ _ => .ok "body"
    createRequest := fun b => .ok { path := "/", rawQuery := "", body := b }
    injectTrace := fun r => .ok r
    doRequest := fun _ => .ok "resp"
    unmarshalResponse := fun _ => .ok "table"
    responseTableToFrame := fun _ => .ok { RefID := "", Meta := none } }

/-- Concrete query with RefID "A" whose execution under `argEnvC` succeeds. -/
def argQueryA : DataQuery :=
  { RefID := "A", JSON := "good", timeRange := { fromUnix := 0, toUnix := 0 } }

/-- Concrete query that shares RefID "A" and whose execution under `argEnvC`
fails at simplejson parsing. -/
def argQueryBadA : DataQuery :=
  { RefID := "A", JSON := "bad", timeRange := { fromUnix := 0, toUnix := 0 } }

/-- Concrete query with RefID "B" whose execution under `argEnvC` succeeds. -/
def argQueryB : DataQuery :=
  { RefID := "B", JSON := "good", timeRange := { fromUnix := 0, toUnix := 0 } }

end ARG


/-! ## Theorems -/

namespace NgAlert

/-- A result whose timestamp is not newer than the instance's last evaluation
time leaves the instance unchanged. -/
theorem processResult_noop (forDuration : Nat) (inst : AlertInstance)
    (r : EvaluationResult) (h : r.timestamp ≤ inst.lastEvaluationTime) :
    processResult forDuration inst r = inst := by
  simp [processResult, h]

/-- Processing a strictly newer result records its timestamp as the
instance's last evaluation time, whatever transition was taken. -/
theorem processResult_lastEvaluationTime (forDuration : Nat)
    (inst : AlertInstance) (r : EvaluationResult)
    (h : ¬ r.timestamp ≤ inst.lastEvaluationTime) :
    (processResult forDuration inst r).lastEvaluationTime = r.timestamp := by
  cases hf : r.firing <;> cases hcs : inst.currentState <;>
    simp [processResult, h, hf, hcs]
  split <;> rfl

/-- C1: a firing result received in `Normal` moves the instance to `Pending`
recording `stateSince` as the result's timestamp; in `Pending`, further
firing results keep the instance `Pending` exactly as long as the continuous
firing time is below the rule's `for`-duration, and move it to `Alerting`
exactly at the tick where that duration is reached. -/
theorem firing_normal_to_pending_to_alerting_at_for_duration
    (forDuration : Nat) (inst : AlertInstance) (r : EvaluationResult)
    (hts : inst.lastEvaluationTime < r.timestamp) (hf : r.firing = true) :
    (inst.currentState = .Normal →
      (processResult forDuration inst r).currentState = .Pending ∧
      (processResult forDuration inst r).stateSince = r.timestamp) ∧
    (inst.currentState = .Pending →
      ((processResult forDuration inst r).currentState = .Alerting ↔
        forDuration ≤ r.timestamp - inst.stateSince) ∧
      ((processResult forDuration inst r).currentState = .Pending ↔
        r.timestamp - inst.stateSince < forDuration)) := by
  have hn : ¬ r.timestamp ≤ inst.lastEvaluationTime := Nat.not_le.mpr hts
  constructor
  · intro hs
    simp [processResult, hn, hf, hs]
  · intro hs
    by_cases hd : forDuration ≤ r.timestamp - inst.stateSince <;>
      (simp [processResult, hn, hf, hs, hd]; try omega)

/-- Witness for C1: a `Pending` instance with `stateSince = 10` under a rule
with `for`-duration 30 becomes `Alerting` on the firing result at t = 40. -/
theorem firing_normal_to_pending_to_alerting_at_for_duration_witness :
    (processResult 30 ⟨"r", 0, .Pending, .Normal, 10, 30⟩
      ⟨"r", 0, 40, true⟩).currentState = .Alerting := by
  have h := firing_normal_to_pending_to_alerting_at_for_duration 30
    ⟨"r", 0, .Pending, .Normal, 10, 30⟩ ⟨"r", 0, 40, true⟩
    (by decide) (by decide)
  exact (h.2 rfl).1.mpr (by decide)

/-- C2: a single non-firing result received while the instance is `Pending`
or `Alerting` resets it to `Normal` at that same tick — no debounce on
resolve. -/
theorem nonfiring_result_resets_to_normal_immediately
    (forDuration : Nat) (inst : AlertInstance) (r : EvaluationResult)
    (hts : inst.lastEvaluationTime < r.timestamp) (hf : r.firing = false)
    (hs : inst.currentState = .Pending ∨ inst.currentState = .Alerting) :
    (processResult forDuration inst r).currentState = .Normal ∧
    (processResult forDuration inst r).stateSince = r.timestamp := by
  have hn : ¬ r.timestamp ≤ inst.lastEvaluationTime := Nat.not_le.mpr hts
  rcases hs with hs | hs <;> simp [processResult, hn, hf, hs]

/-- Witness for C2: an `Alerting` instance returns to `Normal` on the first
non-firing result. -/
theorem nonfiring_result_resets_to_normal_immediately_witness :
    (processResult 30 ⟨"r", 0, .Alerting, .Pending, 5, 10⟩
      ⟨"r", 0, 20, false⟩).currentState = .Normal :=
  (nonfiring_result_resets_to_normal_immediately 30
    ⟨"r", 0, .Alerting, .Pending, 5, 10⟩ ⟨"r", 0, 20, false⟩
    (by decide) (by decide) (Or.inr rfl)).1

/-- C3: a result older than or equal to the instance's last evaluation time
is a no-op, and processing any result a second time changes nothing — the
transition function is idempotent per evaluation timestamp. -/
theorem replaying_processed_result_is_noop (forDuration : Nat)
    (inst : AlertInstance) (r : EvaluationResult) :
    (r.timestamp ≤ inst.lastEvaluationTime →
      processResult forDuration inst r = inst) ∧
    processResult forDuration (processResult forDuration inst r) r =
      processResult forDuration inst r := by
  refine ⟨processResult_noop forDuration inst r, ?_⟩
  by_cases h : r.timestamp ≤ inst.lastEvaluationTime
  · rw [processResult_noop forDuration inst r h]
    exact processResult_noop forDuration inst r h
  · exact processResult_noop forDuration _ r
      (le_of_eq (processResult_lastEvaluationTime forDuration inst r h).symm)

/-- Witness for C3: replaying an already-processed timestamp leaves the
instance unchanged. -/
theorem replaying_processed_result_is_noop_witness :
    processResult 30 ⟨"r", 0, .Pending, .Normal, 10, 20⟩ ⟨"r", 0, 15, true⟩ =
      ⟨"r", 0, .Pending, .Normal, 10, 20⟩ :=
  (replaying_processed_result_is_noop 30 ⟨"r", 0, .Pending, .Normal, 10, 20⟩
    ⟨"r", 0, 15, true⟩).1 (by decide)

end NgAlert

namespace NgAlert

/-- Applying one evaluation result either keeps the cache's key list (update
of an existing instance) or appends the result's key (first observation). -/
theorem applyResult_map_fst (forDuration : Nat) (cache : StateCache)
    (r : EvaluationResult) :
    (applyResult forDuration cache r).map Prod.fst =
      if cache.any (fun p => p.1 == instKey r) then cache.map Prod.fst
      else cache.map Prod.fst ++ [instKey r] := by
  unfold applyResult
  by_cases h : cache.any (fun p => p.1 == instKey r)
  · rw [if_pos h, if_pos h, List.map_map]
    have hfst : (Prod.fst ∘ fun p : (String × Nat) × AlertInstance =>
        if p.1 == instKey r then (p.1, processResult forDuration p.2 r)
        else p) = Prod.fst := by
      funext p
      by_cases hp : p.1 == instKey r <;> simp [Function.comp, hp]
    rw [hfst]
  · rw [if_neg h, if_neg h]
    simp

/-- C4: every State Manager operation — any sequence of evaluation results
applied in order — preserves the invariant that at most one `AlertInstance`
exists per `(ruleUID, labelFingerprint)` pair; transitions are applied
strictly sequentially, one result after the other, by the fold. -/
theorem at_most_one_instance_per_key_preserved (forDuration : Nat)
    (cache : StateCache) (rs : List EvaluationResult)
    (h : atMostOnePerKey cache) :
    atMostOnePerKey (rs.foldl (applyResult forDuration) cache) := by
  induction rs generalizing cache with
  | nil => exact h
  | cons r rest ih =>
      rw [List.foldl_cons]
      apply ih
      unfold atMostOnePerKey at h ⊢
      rw [applyResult_map_fst]
      by_cases hc : cache.any (fun p => p.1 == instKey r)
      · rwa [if_pos hc]
      · rw [if_neg hc]
        refine List.Nodup.append h (List.nodup_singleton _) ?_
        intro a ha hb
        rw [List.mem_singleton] at hb
        subst hb
        apply hc
        rw [List.any_eq_true]
        rcases List.mem_map.mp ha with ⟨p, hp, hpa⟩
        exact ⟨p, hp, by rw [hpa]; exact beq_self_eq_true _⟩

/-- Witness for C4: three results — two for the same key — applied to the
empty cache leave its keys pairwise distinct. -/
theorem at_most_one_instance_per_key_preserved_witness :
    atMostOnePerKey ([⟨"r1", 1, 10, true⟩, ⟨"r1", 1, 20, true⟩,
      ⟨"r2", 2, 10, false⟩].foldl (applyResult 30) []) :=
  at_most_one_instance_per_key_preserved 30 []
    [⟨"r1", 1, 10, true⟩, ⟨"r1", 1, 20, true⟩, ⟨"r2", 2, 10, false⟩]
    (by simp [atMostOnePerKey])

/-- Lower bounds on the next evaluation start: it is not before the previous
evaluation finished, and it is strictly after the previous start. -/
theorem nextEvalStart_bounds (interval prevStart dur : Nat)
    (h : 0 < interval) :
    prevStart + dur ≤ nextEvalStart interval prevStart dur ∧
    prevStart < nextEvalStart interval prevStart dur := by
  unfold nextEvalStart
  set m := max (prevStart + dur) (prevStart + 1) with hm
  have h1 : prevStart + dur ≤ m := le_max_left _ _
  have h2 : prevStart + 1 ≤ m := le_max_right _ _
  have h3 := Nat.div_add_mod (m + interval - 1) interval
  have h4 : (m + interval - 1) % interval < interval :=
    Nat.mod_lt _ h
  set q := (m + interval - 1) / interval with hq
  set rem := (m + interval - 1) % interval with hrem
  have h5 : interval * q + rem = m + interval - 1 := h3
  obtain ⟨k, hk⟩ : ∃ k, k = interval * q := ⟨_, rfl⟩
  rw [← hk] at h5 ⊢
  constructor <;> omega

/-- C6: for one rule's evaluation loop, at every moment at most one
evaluation is in flight: the (n+1)-th evaluation starts no earlier than the
n-th one finished, start times are strictly increasing (so evaluations and
their state transitions are strictly ordered), and when an evaluation
overruns the interval the loop skips to the next tick boundary — every start
after the first lies on a multiple of the interval, with no queued backlog. -/
theorem scheduler_at_most_one_inflight_per_rule (interval : Nat)
    (dur : Nat → Nat) (n : Nat) (h : 0 < interval) :
    evalStart interval dur n + dur n ≤ evalStart interval dur (n + 1) ∧
    evalStart interval dur n < evalStart interval dur (n + 1) ∧
    interval ∣ evalStart interval dur (n + 1) := by
  have hb := nextEvalStart_bounds interval (evalStart interval dur n) (dur n) h
  refine ⟨hb.1, hb.2, ?_⟩
  show interval ∣ nextEvalStart interval (evalStart interval dur n) (dur n)
  exact ⟨_, rfl⟩

/-- Witness for C6: interval 10, evaluation 0 starts at t = 0 and takes 25,
so evaluation 1 starts at the tick boundary t = 30, after the finish at 25. -/
theorem scheduler_at_most_one_inflight_per_rule_witness :
    evalStart 10 (fun _ => 25) 0 + 25 ≤ evalStart 10 (fun _ => 25) 1 ∧
    evalStart 10 (fun _ => 25) 0 < evalStart 10 (fun _ => 25) 1 ∧
    10 ∣ evalStart 10 (fun _ => 25) 1 :=
  scheduler_at_most_one_inflight_per_rule 10 (fun _ => 25) 0 (by decide)

/-- Every forked handler built from a cache and two implementations resolves
the data source via that cache and serves each request through exactly the
implementation selected by the declared backend type. -/
theorem forksOver_mk (cache : DatasourceCache) {Req Resp : Type}
    (proxy localH : Req → Except RouteError Resp) :
    forksOver ⟨cache, proxy, localH⟩ cache proxy localH := by
  refine ⟨rfl, fun orgID dsUID req => ⟨?_, ?_⟩⟩
  · intro h
    simp [ForkedHandler.handle, h]
  · intro ds h
    simp [ForkedHandler.handle, h]

/-- Whatever path a forked handler selects, successful responses satisfy any
schema predicate satisfied by both implementations' responses. -/
theorem handle_respects_shared_schema {Req Resp : Type}
    (f : ForkedHandler Req Resp) : respectsSharedSchema f := by
  intro conforms hp hl orgID dsUID req resp h
  unfold ForkedHandler.handle at h
  cases hc : f.cache orgID dsUID with
  | none => rw [hc] at h; simp at h
  | some ds =>
      rw [hc] at h
      rcases ds with ⟨bt⟩
      cases bt with
      | grafana => exact hl req resp h
      | lotex => exact hp req resp h

/-- C5: for each of the three resource families — Alertmanager, Prometheus,
Ruler — the handler registered by RegisterAPIEndpoints is a fork over
exactly two implementations, the Lotex proxy and the local service, selected
per request through the shared datasource cache by the data source's
declared backend type; and on every family both paths' successful responses
conform to the family's single response schema. -/
theorem forked_api_routes_two_paths_shared_schema
    {AMReq AMResp PromReq PromResp RulerReq RulerResp : Type}
    (api : API AMReq AMResp PromReq PromResp RulerReq RulerResp) :
    forksOver (registerAPIEndpoints api).alertmanager api.datasourceCache
      api.lotexAM api.alertmanagerSrv ∧
    forksOver (registerAPIEndpoints api).prometheus api.datasourceCache
      api.lotexProm api.prometheusSrv ∧
    forksOver (registerAPIEndpoints api).ruler api.datasourceCache
      api.lotexRuler api.rulerSrv ∧
    respectsSharedSchema (registerAPIEndpoints api).alertmanager ∧
    respectsSharedSchema (registerAPIEndpoints api).prometheus ∧
    respectsSharedSchema (registerAPIEndpoints api).ruler :=
  ⟨forksOver_mk api.datasourceCache api.lotexAM api.alertmanagerSrv,
   forksOver_mk api.datasourceCache api.lotexProm api.prometheusSrv,
   forksOver_mk api.datasourceCache api.lotexRuler api.rulerSrv,
   handle_respects_shared_schema _,
   handle_respects_shared_schema _,
   handle_respects_shared_schema _⟩

/-- Witness for C5: with a cache declaring the data source Grafana-managed,
the registered Alertmanager fork serves the request through the local
implementation. -/
theorem forked_api_routes_two_paths_shared_schema_witness :
    (registerAPIEndpoints sampleRouterAPI).alertmanager.handle 0 "ds" () =
      .ok 2 := by
  have h := forked_api_routes_two_paths_shared_schema sampleRouterAPI
  have h2 := (h.1.2 0 "ds" ()).2 { backendType := .grafana } rfl
  simpa using h2

/-- C7: the Alertmanager-compatible surface provides config apply, silence
create/delete/list, and alert and alert-group listing; both listing
operations take exactly the parameters active, silenced, inhibited, a label
filter and a receiver name; and every operation's results end in a Go error
value through which failure is reported. -/
theorem alertmanager_surface_filters_and_error_results :
    amOpParams .getAlerts =
      [("active", .boolType), ("silenced", .boolType),
       ("inhibited", .boolType), ("filter", .stringList),
       ("receiver", .stringType)] ∧
    amOpParams .getAlertGroups = amOpParams .getAlerts ∧
    amOpResults .saveAndApplyConfig = [.errType] ∧
    amOpResults .createSilence = [.stringType, .errType] ∧
    amOpResults .deleteSilence = [.errType] ∧
    amOpResults .listSilences = [.gettableSilences, .errType] ∧
    ∀ op : AMOp, (amOpResults op).getLast? = some .errType := by
  refine ⟨rfl, rfl, rfl, rfl, rfl, rfl, ?_⟩
  intro op
  cases op <;> rfl

/-- C8: rule creation consults the quota service for the requesting
organization; with the quota exhausted it returns a capacity rejection
synchronously and starts no evaluation loop, and with quota available it
starts the rule's loop. -/
theorem quota_exhausted_rejects_rule_creation (q : QuotaService)
    (reg : SchedulerRegistry) (orgID : Nat) (ruleUID : String) :
    (q.CheckQuota orgID .alertRule = false →
      createRule q reg orgID ruleUID = .error .capacityRejection) ∧
    (q.CheckQuota orgID .alertRule = true →
      createRule q reg orgID ruleUID = .ok (ruleUID :: reg)) := by
  constructor <;> (intro h; simp [createRule, h])

/-- Witness for C8: an always-exhausted quota service makes rule creation
return the capacity rejection. -/
theorem quota_exhausted_rejects_rule_creation_witness :
    createRule ⟨fun _ _ => false⟩ [] 7 "u1" = .error .capacityRejection :=
  (quota_exhausted_rejects_rule_creation ⟨fun _ _ => false⟩ [] 7 "u1").1 rfl

end NgAlert

namespace Migration

/-- C9: generateNewDashboardUid makes at most three attempts; it returns
either the first generated UID that does not already exist for the
organization (with no error), or the store error of the first failing
existence check, or — only when all three generated UIDs already exist —
ErrDashboardFailedGenerateUniqueUid; it never returns a UID already in use. -/
theorem generateNewDashboardUid_attempts_spec (gen : Nat → String)
    (get : Int → String → Except String Bool) (orgId : Int) :
    (∃ i, i < 3 ∧
      generateNewDashboardUid gen get orgId = .ok (gen i) ∧
      get orgId (gen i) = .ok false ∧
      ∀ j, j < i → get orgId (gen j) = .ok true) ∨
    (∃ i, i < 3 ∧ ∃ e,
      generateNewDashboardUid gen get orgId = .error (.storeFailure e) ∧
      get orgId (gen i) = .error e ∧
      ∀ j, j < i → get orgId (gen j) = .ok true) ∨
    (generateNewDashboardUid gen get orgId = .error .failedGenerateUniqueUid ∧
      ∀ i, i < 3 → get orgId (gen i) = .ok true) := by
  have u0 : generateNewDashboardUid gen get orgId =
      (match get orgId (gen 0) with
       | .error e => .error (.storeFailure e)
       | .ok true => generateUidAttempts gen get orgId 1 2
       | .ok false => .ok (gen 0)) := rfl
  have u1 : generateUidAttempts gen get orgId 1 2 =
      (match get orgId (gen 1) with
       | .error e => .error (.storeFailure e)
       | .ok true => generateUidAttempts gen get orgId 2 1
       | .ok false => .ok (gen 1)) := rfl
  have u2 : generateUidAttempts gen get orgId 2 1 =
      (match get orgId (gen 2) with
       | .error e => .error (.storeFailure e)
       | .ok true => .error .failedGenerateUniqueUid
       | .ok false => .ok (gen 2)) := rfl
  cases h0 : get orgId (gen 0) with
  | error e0 =>
      refine Or.inr (Or.inl ⟨0, by omega, e0, ?_, h0, ?_⟩)
      · rw [u0, h0]
      · intro j hj
        exact absurd hj (Nat.not_lt_zero j)
  | ok b0 =>
    cases b0 with
    | false =>
        refine Or.inl ⟨0, by omega, ?_, h0, ?_⟩
        · rw [u0, h0]
        · intro j hj
          exact absurd hj (Nat.not_lt_zero j)
    | true =>
      cases h1 : get orgId (gen 1) with
      | error e1 =>
          refine Or.inr (Or.inl ⟨1, by omega, e1, ?_, h1, ?_⟩)
          · rw [u0, h0, u1, h1]
          · intro j hj
            interval_cases j
            exact h0
      | ok b1 =>
        cases b1 with
        | false =>
            refine Or.inl ⟨1, by omega, ?_, h1, ?_⟩
            · rw [u0, h0, u1, h1]
            · intro j hj
              interval_cases j
              exact h0
        | true =>
          cases h2 : get orgId (gen 2) with
          | error e2 =>
              refine Or.inr (Or.inl ⟨2, by omega, e2, ?_, h2, ?_⟩)
              · rw [u0, h0, u1, h1, u2, h2]
              · intro j hj
                interval_cases j
                · exact h0
                · exact h1
          | ok b2 =>
            cases b2 with
            | false =>
                refine Or.inl ⟨2, by omega, ?_, h2, ?_⟩
                · rw [u0, h0, u1, h1, u2, h2]
                · intro j hj
                  interval_cases j
                  · exact h0
                  · exact h1
            | true =>
                refine Or.inr (Or.inr ⟨?_, ?_⟩)
                · rw [u0, h0, u1, h1, u2, h2]
                · intro i hi
                  interval_cases i
                  · exact h0
                  · exact h1
                  · exact h2

/-- Witness for C9: with a generator always yielding "u" and a store in which
no UID exists, the classification is inhabited at a concrete input. -/
theorem generateNewDashboardUid_attempts_spec_witness :
    (∃ i, i < 3 ∧
      generateNewDashboardUid (fun _ => "u") (fun _ _ => .ok false) 1 =
        .ok ((fun _ : Nat => "u") i) ∧
      (fun _ _ => .ok false : Int → String → Except String Bool) 1
        ((fun _ : Nat => "u") i) = .ok false ∧
      ∀ j, j < i →
        (fun _ _ => .ok false : Int → String → Except String Bool) 1
          ((fun _ : Nat => "u") j) = .ok true) ∨
    (∃ i, i < 3 ∧ ∃ e,
      generateNewDashboardUid (fun _ => "u") (fun _ _ => .ok false) 1 =
        .error (.storeFailure e) ∧
      (fun _ _ => .ok false : Int → String → Except String Bool) 1
        ((fun _ : Nat => "u") i) = .error e ∧
      ∀ j, j < i →
        (fun _ _ => .ok false : Int → String → Except String Bool) 1
          ((fun _ : Nat => "u") j) = .ok true) ∨
    (generateNewDashboardUid (fun _ => "u") (fun _ _ => .ok false) 1 =
        .error .failedGenerateUniqueUid ∧
      ∀ i, i < 3 →
        (fun _ _ => .ok false : Int → String → Except String Bool) 1
          ((fun _ : Nat => "u") i) = .ok true) :=
  generateNewDashboardUid_attempts_spec (fun _ => "u") (fun _ _ => .ok false) 1

end Migration

namespace ARG

/-- buildQueries preserves RefIDs: the built queries carry exactly the input
queries' RefIDs, in order. -/
theorem buildQueries_refIDs (env : ArgEnv) (qs : List DataQuery)
    (built : List AzureResourceGraphQuery)
    (h : buildQueries env qs = .ok built) :
    built.map AzureResourceGraphQuery.RefID = qs.map DataQuery.RefID := by
  induction qs generalizing built with
  | nil =>
      simp only [buildQueries, Except.ok.injEq] at h
      subst h
      rfl
  | cons q rest ih =>
      simp only [buildQueries] at h
      split at h
      · simp at h
      · split at h
        · simp at h
        · split at h
          · simp at h
          next tail heq3 =>
            simp only [Except.ok.injEq] at h
            subst h
            simp [ih tail heq3]

/-- Folding Go map assignment over queries with pairwise-distinct RefIDs,
starting from a map not containing any of them, appends exactly one entry per
query holding that query's own response. -/
theorem foldResponses_distinct (env : ArgEnv) :
    ∀ l : List AzureResourceGraphQuery,
      (l.map AzureResourceGraphQuery.RefID).Nodup →
      ∀ acc : Responses, (∀ q ∈ l, ∀ p ∈ acc, p.1 ≠ q.RefID) →
      l.foldl (fun a q => setResponse a q.RefID (executeQuery env q)) acc =
        acc ++ l.map (fun q => (q.RefID, executeQuery env q)) := by
  intro l
  induction l with
  | nil =>
      intro _ acc _
      simp
  | cons q rest ih =>
      intro hnd acc hd
      have hnotin : ¬ acc.any (fun p => p.1 == q.RefID) = true := by
        rw [List.any_eq_true]
        rintro ⟨p, hp, hbeq⟩
        exact hd q (List.mem_cons_self q rest) p hp (by simpa using hbeq)
      have hstep : setResponse acc q.RefID (executeQuery env q) =
          acc ++ [(q.RefID, executeQuery env q)] := by
        unfold setResponse
        rw [if_neg hnotin]
      rw [List.foldl_cons, hstep]
      rw [ih (List.nodup_cons.mp hnd).2 (acc ++ [(q.RefID, executeQuery env q)]) ?_]
      · simp
      · intro q2 hq2 p hp
        rcases List.mem_append.mp hp with hpa | hpb
        · exact hd q2 (List.mem_cons_of_mem q hq2) p hpa
        · rw [List.mem_singleton] at hpb
          subst hpb
          intro hcontra
          apply (List.nodup_cons.mp hnd).1
          have hc2 : q.RefID = q2.RefID := hcontra
          rw [hc2]
          exact List.mem_map_of_mem AzureResourceGraphQuery.RefID hq2

/-- C10 (amended): for every list of queries accepted by buildQueries whose
RefIDs are pairwise distinct, executeTimeSeriesQuery returns a nil top-level
error and a response map with exactly one entry per query, keyed by that
query's RefID and holding exactly that query's executeQuery response — so a
failure while executing one query is recorded only in that query's
DataResponse.Error and does not affect the other entries. With duplicate
RefIDs the later query's response overwrites the earlier one's entry. -/
theorem executeTimeSeriesQuery_per_query_isolation (env : ArgEnv)
    (qs : List DataQuery) (built : List AzureResourceGraphQuery)
    (hb : buildQueries env qs = .ok built)
    (hnd : (qs.map DataQuery.RefID).Nodup) :
    executeTimeSeriesQuery env qs =
      .ok (built.map fun q => (q.RefID, executeQuery env q)) ∧
    built.map AzureResourceGraphQuery.RefID = qs.map DataQuery.RefID := by
  have hr := buildQueries_refIDs env qs built hb
  have hnd2 : (built.map AzureResourceGraphQuery.RefID).Nodup := by
    rw [hr]; exact hnd
  refine ⟨?_, hr⟩
  unfold executeTimeSeriesQuery
  simp only [hb]
  rw [foldResponses_distinct env built hnd2 [] ?_]
  · simp
  · intro q2 _ p hp
    simp at hp

/-- Witness for C10 (amended): two queries with distinct RefIDs "A" and "B"
produce one entry each, holding their own responses. -/
theorem executeTimeSeriesQuery_per_query_isolation_witness :
    executeTimeSeriesQuery argEnvC [argQueryA, argQueryB] =
      .ok ([{ RefID := "A", ResultFormat := "table", JSON := "good",
              InterpolatedQuery := "q",
              timeRange := { fromUnix := 0, toUnix := 0 } },
            { RefID := "B", ResultFormat := "table", JSON := "good",
              InterpolatedQuery := "q",
              timeRange := { fromUnix := 0, toUnix := 0 } }].map
        fun q => (q.RefID, executeQuery argEnvC q)) ∧
    [{ RefID := "A", ResultFormat := "table", JSON := "good",
       InterpolatedQuery := "q",
       timeRange := { fromUnix := 0, toUnix := 0 } },
     { RefID := "B", ResultFormat := "table", JSON := "good",
       InterpolatedQuery := "q",
       timeRange := { fromUnix := 0, toUnix := 0 }
       : AzureResourceGraphQuery }].map AzureResourceGraphQuery.RefID =
      [argQueryA, argQueryB].map DataQuery.RefID :=
  executeTimeSeriesQuery_per_query_isolation argEnvC [argQueryA, argQueryB]
    [{ RefID := "A", ResultFormat := "table", JSON := "good",
       InterpolatedQuery := "q",
       timeRange := { fromUnix := 0, toUnix := 0 } },
     { RefID := "B", ResultFormat := "table", JSON := "good",
       InterpolatedQuery := "q",
       timeRange := { fromUnix := 0, toUnix := 0 } }]
    (by rfl) (by simp [argQueryA, argQueryB])

/-- C10 counterexample: two queries accepted by buildQueries that share RefID
"A" — the first executes successfully, the second fails — yield a response
map with a single entry, not one entry per query, and that entry records the
second query's error in place of the first query's successful response. -/
theorem executeTimeSeriesQuery_duplicate_refid_counterexample :
    executeTimeSeriesQuery argEnvC [argQueryA, argQueryBadA] =
      .ok [("A", { Frames := [], Error := some "parse failure" })] ∧
    (executeQuery argEnvC
      { RefID := "A", ResultFormat := "table", JSON := "good",
        InterpolatedQuery := "q",
        timeRange := { fromUnix := 0, toUnix := 0 } }).Error = none ∧
    [argQueryA, argQueryBadA].length = 2 := by
  refine ⟨?_, rfl, rfl⟩
  rfl

end ARG
